import Mathlib

/-!
Shallow embedding of the stratisd excerpt:
  - src/dbus_api/api.rs      (handlers create_pool, destroy_pool,
                              configure_simulator; process_deferred_actions;
                              handle)
  - src/engine/strat_engine/util.rs (execute_cmd)

Stateful Rust code (Rc/RefCell shared mutable state) is embedded as explicit
state passing.  Each handler additionally returns an event trace that records,
in program order, the acquisition and release of the Domain Engine's mutable
borrow (RefCell::borrow_mut and the drop of the resulting RefMut), the engine
operations invoked, queue pushes, and the registry/transport mutations
performed by the drain step.  Types, macros and helper functions of the
repository that are not part of the excerpt (dbus_api/types.rs,
dbus_api/util.rs, dbus_api/pool.rs, dbus_api/blockdev.rs, engine/errors.rs)
are modelled from the spec; each such definition carries a doc comment saying
so.
-/

namespace Stratisd

/-- Pool and block-device identities (Uuid in the source). -/
abbrev Uuid := Nat

/-- The default value of a dbus object path (`dbus::Path::default()`),
the root path. -/
def dbusPathDefault : String := "/"

/-- Modelled from the spec: the fixed base path of the object-bus surface
(`STRATIS_BASE_PATH` in dbus_api/util.rs, not part of the excerpt). -/
def STRATIS_BASE_PATH : String := "/org/storage/stratis1"

/-- Modelled from the spec: the domain error taxonomy kinds (`ErrorEnum` in
engine/errors.rs, not part of the excerpt; the variant `ErrorEnum::Error` is
referenced from src/engine/strat_engine/util.rs). -/
inductive ErrorEnum where
  | error
  | alreadyExists
  | busy
  | invalid
  | notFound
deriving DecidableEq, Repr

/-- Modelled from the spec: the domain error type (`EngineError` in
engine/errors.rs, not part of the excerpt): a kind together with a free-text
message, or a propagated io failure (the variant `EngineError::Engine` is
referenced from src/engine/strat_engine/util.rs). -/
inductive EngineError where
  | engine : ErrorEnum → String → EngineError
  | ioErr : String → EngineError
deriving DecidableEq, Repr

/-- Modelled from the spec: one stable nonzero numeric code per error kind
(the `DbusErrorEnum` codes in dbus_api/types.rs, not part of the excerpt);
the code 0 is reserved for the success sentinel. -/
def dbusErrorCode : ErrorEnum → Nat
  | .error => 1
  | .alreadyExists => 2
  | .busy => 3
  | .invalid => 4
  | .notFound => 5

/-- Modelled from the spec: the Error Translator (`engine_to_dbus_err_tuple`
in dbus_api/util.rs, not part of the excerpt): a total pure mapping from the
domain error taxonomy to a (numeric code, message) pair, one stable code per
kind, the original free-text message preserved verbatim. -/
def engine_to_dbus_err_tuple : EngineError → Nat × String
  | .engine k msg => (dbusErrorCode k, msg)
  | .ioErr msg => (6, msg)

/-- Modelled from the spec: the success sentinel code (`msg_code_ok` in
dbus_api/util.rs, not part of the excerpt). -/
def msg_code_ok : Nat := 0

/-- Modelled from the spec: the success sentinel message (`msg_string_ok` in
dbus_api/util.rs, not part of the excerpt). -/
def msg_string_ok : String := "OK"

/-- Modelled from the spec: the redundancy argument is a (present, value)
pair denoting an optional value (`tuple_to_option` in dbus_api/util.rs, not
part of the excerpt). -/
def tuple_to_option (t : Bool × Nat) : Option Nat :=
  if t.1 then some t.2 else none

/-- Modelled from the spec: the entity record attached to a bound object path
(`OPContext` in dbus_api/types.rs, not part of the excerpt): the parent path
and the engine-assigned identity. -/
structure OPContext where
  parent : String
  uuid : Uuid
deriving DecidableEq, Repr

/-- The Deferred Action type (`DeferredAction` in dbus_api/types.rs, not part
of the excerpt; modelled from the spec): `add` carries the object path to be
registered together with its entity record, `remove` carries the path to be
unregistered. -/
inductive DeferredAction where
  | add : String → Option OPContext → DeferredAction
  | remove : String → DeferredAction
deriving DecidableEq, Repr

/-- Whether a deferred action is an `add`. -/
def DeferredAction.isAdd : DeferredAction → Bool
  | .add _ _ => true
  | .remove _ => false

/-- Modelled from the spec: the Deferred Action Queue (`ActionQueue` in
dbus_api/types.rs, not part of the excerpt): an ordered buffer, FIFO. -/
abbrev ActionQueue := List DeferredAction

/-- Modelled from the spec: append an Add action at the tail of the queue. -/
def ActionQueue.push_add (q : ActionQueue) (path : String)
    (d : Option OPContext) : ActionQueue :=
  q ++ [DeferredAction.add path d]

/-- Modelled from the spec: append a Remove action at the tail of the queue. -/
def ActionQueue.push_remove (q : ActionQueue) (path : String) : ActionQueue :=
  q ++ [DeferredAction.remove path]

/-- Modelled from the spec: `drain` returns the queued actions in enqueue
order and empties the queue. -/
def ActionQueue.drain (q : ActionQueue) : List DeferredAction × ActionQueue :=
  (q, [])

/-- The dbus object tree restricted to what the excerpt reads and writes:
the bound object paths, each with its optional entity record
(`Tree::get`, `Tree::insert`, `Tree::remove` in dbus::tree). -/
abbrev DbusTree := List (String × Option OPContext)

/-- `tree.get(path)`: the entry bound at `path`, if any. -/
def DbusTree.get (t : DbusTree) (p : String) : Option (Option OPContext) :=
  (t.find? (fun e => e.1 == p)).map (fun e => e.2)

/-- `tree.insert(path)`: bind an object path (with its data) into the tree. -/
def DbusTree.insert (t : DbusTree) (p : String) (d : Option OPContext) :
    DbusTree :=
  t ++ [(p, d)]

/-- `tree.remove(path)`: unbind an object path from the tree. -/
def DbusTree.remove (t : DbusTree) (p : String) : DbusTree :=
  t.filter (fun e => e.1 != p)

/-- The Domain Engine façade (the `Engine` trait, external to the excerpt),
spec section 4.5: the mutation and enumeration operations the handlers
consume, as explicit state-passing functions over an abstract engine state.
`get_pool_blockdevs` combines the pool lookup (the `get_mut_pool!` macro)
with `pool.blockdevs()`, returning the identities of the pool's block
devices. -/
structure EngineOps (σ : Type) where
  create_pool : σ → String → List String → Option Nat → Bool →
    Except EngineError Uuid × σ
  get_pool_blockdevs : σ → Uuid → Option (List Uuid)
  destroy_pool : σ → Uuid → Except EngineError Bool × σ
  configure_simulator : σ → Nat → Except EngineError Unit × σ

/-- Trace events: engine-borrow lifecycle, engine operations, queue pushes,
and the registry/transport mutations performed by the drain step. -/
inductive Event where
  | borrowEngine
  | releaseEngine
  | engineCreatePool
  | engineDestroyPool
  | engineConfigureSimulator
  | pushAdd : String → Event
  | pushRemove : String → Event
  | registerPath : String → Event
  | unregisterPath : String → Event
  | treeInsert : String → Event
  | treeRemove : String → Event
deriving DecidableEq, Repr

/-- The shared dbus context (`DbusContext` in dbus_api/types.rs, not part of
the excerpt; modelled from the spec): the path counter, the engine state
(standing for the `Rc<RefCell<Engine>>` contents), and the action queue. -/
structure DbusContext (σ : Type) where
  next_index : Nat
  engine : σ
  actions : ActionQueue
deriving Repr

/-- The three-part reply shape `(payload-or-default, numeric-code, message)`
produced by `Message::append3`. -/
structure Reply (α : Type) where
  payload : α
  code : Nat
  message : String
deriving DecidableEq, Repr

/-- The result of one handler invocation: the reply, the updated shared
context, and the event trace of the handler body. -/
structure HandlerResult (σ : Type) (α : Type) where
  reply : Reply α
  ctx : DbusContext σ
  events : List Event
deriving Repr

/-- The event trace of a handler body that acquires the engine borrow,
performs one engine operation, pushes zero or more actions while the borrow
is still held, and releases the borrow when the enclosing scope ends. -/
def handlerTrace (op : Event) (pushes : List Event) : List Event :=
  Event.borrowEngine :: op :: (pushes ++ [Event.releaseEngine])

/-- Modelled from the spec: `create_dbus_pool` (dbus_api/pool.rs, not part of
the excerpt): synthesizes a fresh object path for the pool from the base path
and the path counter, enqueues an Add action carrying the entity record, and
returns the new path.  It touches only the counter and the queue: it does not
borrow the engine. -/
def create_dbus_pool (ctx : DbusContext σ) (parent : String) (uuid : Uuid) :
    String × DbusContext σ :=
  let path := STRATIS_BASE_PATH ++ "/" ++ toString ctx.next_index
  (path,
    { next_index := ctx.next_index + 1
      engine := ctx.engine
      actions := ActionQueue.push_add ctx.actions path (some ⟨parent, uuid⟩) })

/-- Modelled from the spec: `create_dbus_blockdev` (dbus_api/blockdev.rs, not
part of the excerpt): synthesizes a fresh object path for a block device
under its parent pool path, enqueues an Add action carrying the entity
record, and returns the new path.  It does not borrow the engine. -/
def create_dbus_blockdev (ctx : DbusContext σ) (parent : String)
    (uuid : Uuid) : String × DbusContext σ :=
  let path := STRATIS_BASE_PATH ++ "/" ++ toString ctx.next_index
  (path,
    { next_index := ctx.next_index + 1
      engine := ctx.engine
      actions := ActionQueue.push_add ctx.actions path (some ⟨parent, uuid⟩) })

/-- The `pool.blockdevs().iter().map(|bd| create_dbus_blockdev(..)).collect()`
step of create_pool (src/dbus_api/api.rs lines 70-73): one path synthesized
and one Add enqueued per block device, in order. -/
def create_blockdev_paths (parent : String) :
    List Uuid → DbusContext σ → List String × DbusContext σ
  | [], ctx => ([], ctx)
  | u :: rest, ctx =>
    let r := create_dbus_blockdev ctx parent u
    let rr := create_blockdev_paths parent rest r.2
    (r.1 :: rr.1, rr.2)

/-- src/dbus_api/api.rs lines 43-85 (`create_pool`).  The `RefMut` bound to
the local `engine` is dropped only at the end of the function body, after the
match — it is still live when `create_dbus_pool` and `create_dbus_blockdev`
push their Add actions (it is even used again by `get_mut_pool!` after the
first push), so all pushes appear between `borrowEngine` and `releaseEngine`
in the trace. -/
def create_pool (E : EngineOps σ) (name : String) (redundancy : Bool × Nat)
    (force : Bool) (devs : List String) (base_path : String)
    (ctx : DbusContext σ) : HandlerResult σ (String × List String) :=
  let borrowed := E.create_pool ctx.engine name devs
    (tuple_to_option redundancy) force
  let ctx1 : DbusContext σ := { ctx with engine := borrowed.2 }
  let default_return : String × List String := (dbusPathDefault, [])
  match borrowed.1 with
  | .ok pool_uuid =>
    let pc := create_dbus_pool ctx1 base_path pool_uuid
    match E.get_pool_blockdevs pc.2.engine pool_uuid with
    | none =>
      -- the `get_mut_pool!` macro (dbus_api/macros.rs, not part of the
      -- excerpt): on lookup failure the reply carries the default payload
      -- and an internal-error tuple
      { reply := ⟨default_return, dbusErrorCode .error, "engine does not know about pool"⟩
        ctx := pc.2
        events := handlerTrace Event.engineCreatePool [Event.pushAdd pc.1] }
    | some bds =>
      let bp := create_blockdev_paths pc.1 bds pc.2
      { reply := ⟨(pc.1, bp.1), msg_code_ok, msg_string_ok⟩
        ctx := bp.2
        events := handlerTrace Event.engineCreatePool
          (Event.pushAdd pc.1 :: bp.1.map Event.pushAdd) }
  | .error x =>
    let rcrs := engine_to_dbus_err_tuple x
    { reply := ⟨default_return, rcrs.1, rcrs.2⟩
      ctx := ctx1
      events := handlerTrace Event.engineCreatePool [] }

/-- src/dbus_api/api.rs lines 87-120 (`destroy_pool`).  When the target path
is absent from the tree the handler returns the no-op success reply without
borrowing the engine (empty trace).  Otherwise the `RefMut` temporary created
by `engine.borrow_mut()` in the match scrutinee lives until the end of the
match statement, so the `push_remove` of the Ok arm runs while the borrow is
still held. -/
def destroy_pool (E : EngineOps σ) (object_path : String) (tree : DbusTree)
    (ctx : DbusContext σ) : HandlerResult σ Bool :=
  let default_return := false
  match DbusTree.get tree object_path with
  | none =>
    { reply := ⟨default_return, msg_code_ok, msg_string_ok⟩
      ctx := ctx
      events := [] }
  | some none =>
    -- the `get_data!` macro (dbus_api/macros.rs, not part of the excerpt):
    -- a bound path carrying no entity record yields the default payload and
    -- an internal-error tuple, without borrowing the engine
    { reply := ⟨default_return, dbusErrorCode .error, "no data for object path"⟩
      ctx := ctx
      events := [] }
  | some (some data) =>
    let borrowed := E.destroy_pool ctx.engine data.uuid
    let ctx1 : DbusContext σ := { ctx with engine := borrowed.2 }
    match borrowed.1 with
    | .ok action =>
      { reply := ⟨action, msg_code_ok, msg_string_ok⟩
        ctx := { ctx1 with
                 actions := ActionQueue.push_remove ctx1.actions object_path }
        events := handlerTrace Event.engineDestroyPool
          [Event.pushRemove object_path] }
    | .error err =>
      let rcrs := engine_to_dbus_err_tuple err
      { reply := ⟨default_return, rcrs.1, rcrs.2⟩
        ctx := ctx1
        events := handlerTrace Event.engineDestroyPool [] }

/-- src/dbus_api/api.rs lines 127-149 (`configure_simulator`): one engine
operation under the borrow, no queue pushes, two-part reply (payload `()`
models `append2`). -/
def configure_simulator (E : EngineOps σ) (denominator : Nat)
    (ctx : DbusContext σ) : HandlerResult σ Unit :=
  let borrowed := E.configure_simulator ctx.engine denominator
  let ctx1 : DbusContext σ := { ctx with engine := borrowed.2 }
  match borrowed.1 with
  | .ok _ =>
    { reply := ⟨(), msg_code_ok, msg_string_ok⟩
      ctx := ctx1
      events := handlerTrace Event.engineConfigureSimulator [] }
  | .error err =>
    let rcrs := engine_to_dbus_err_tuple err
    { reply := ⟨(), rcrs.1, rcrs.2⟩
      ctx := ctx1
      events := handlerTrace Event.engineConfigureSimulator [] }

/-- Applying one drained action (the match arms of
src/dbus_api/api.rs lines 234-245): an Add registers the path with the
connection and inserts it into the tree; a Remove unregisters it and removes
it from the tree. -/
def apply_action (conn : List String) (tree : DbusTree) :
    DeferredAction → List String × DbusTree × List Event
  | .add path d =>
    (conn ++ [path], DbusTree.insert tree path d,
      [Event.registerPath path, Event.treeInsert path])
  | .remove path =>
    (conn.filter (fun p => p != path), DbusTree.remove tree path,
      [Event.unregisterPath path, Event.treeRemove path])

/-- The `for action in actions.drain()` loop of process_deferred_actions
(src/dbus_api/api.rs lines 234-245), applied to the drained list in order. -/
def run_actions (conn : List String) (tree : DbusTree) :
    List DeferredAction → List String × DbusTree × List Event
  | [] => (conn, tree, [])
  | a :: rest =>
    let s := apply_action conn tree a
    let r := run_actions s.1 s.2.1 rest
    (r.1, r.2.1, s.2.2 ++ r.2.2)

/-- The result of the drain step: the updated connection registrations, the
updated tree, the queue left behind, and the trace of registry/transport
mutations. -/
structure DrainResult where
  conn : List String
  tree : DbusTree
  queue : ActionQueue
  events : List Event
deriving Repr

/-- src/dbus_api/api.rs lines 230-247 (`process_deferred_actions`): drain the
deferred action queue and apply each action, in enqueue order, to the
connection's registered paths and to the dbus tree. -/
def process_deferred_actions (conn : List String) (tree : DbusTree)
    (actions : ActionQueue) : DrainResult :=
  let d := ActionQueue.drain actions
  let r := run_actions conn tree d.1
  { conn := r.1, tree := r.2.1, queue := d.2, events := r.2.2 }

/-- One inbound method call of the Manager interface
(src/dbus_api/api.rs lines 157-175). -/
inductive MethodCall where
  | createPoolCall (name : String) (redundancy : Bool × Nat) (force : Bool)
      (devices : List String)
  | destroyPoolCall (pool : String)
  | configureSimulatorCall (denominator : Nat)
deriving DecidableEq, Repr

/-- A reply message, tagged by the method that produced it. -/
inductive ReplyMsg where
  | createPoolReply : Reply (String × List String) → ReplyMsg
  | destroyPoolReply : Reply Bool → ReplyMsg
  | configureSimulatorReply : Reply Unit → ReplyMsg
deriving DecidableEq, Repr

/-- The process-wide state threaded through one call cycle: the shared
context, the dbus tree, and the connection's registered paths. -/
structure SysState (σ : Type) where
  ctx : DbusContext σ
  tree : DbusTree
  conn : List String
deriving Repr

/-- The result of one full call cycle of `handle`. -/
structure CycleResult (σ : Type) where
  reply : ReplyMsg
  state : SysState σ
  events : List Event
deriving Repr

/-- The method-table dispatch performed by `tree.handle(msg)`
(src/dbus_api/api.rs line 255, method table built at lines 157-191):
route the call to its handler. -/
def dispatch (E : EngineOps σ) (call : MethodCall) (st : SysState σ) :
    ReplyMsg × DbusContext σ × List Event :=
  match call with
  | .createPoolCall name red force devs =>
    let r := create_pool E name red force devs STRATIS_BASE_PATH st.ctx
    (.createPoolReply r.reply, r.ctx, r.events)
  | .destroyPoolCall pool =>
    let r := destroy_pool E pool st.tree st.ctx
    (.destroyPoolReply r.reply, r.ctx, r.events)
  | .configureSimulatorCall den =>
    let r := configure_simulator E den st.ctx
    (.configureSimulatorReply r.reply, r.ctx, r.events)

/-- src/dbus_api/api.rs lines 249-267 (`handle`): dispatch one inbound method
call to its handler, send the reply, then drain the deferred action queue and
apply the actions to the connection and the tree. -/
def handle (E : EngineOps σ) (call : MethodCall) (st : SysState σ) :
    CycleResult σ :=
  let h := dispatch E call st
  let d := process_deferred_actions st.conn st.tree h.2.1.actions
  { reply := h.1
    state :=
      { ctx := { h.2.1 with actions := d.queue }
        tree := d.tree
        conn := d.conn }
    events := h.2.2 ++ d.events }

/-- The captured output of a spawned command (`std::process::Output`
restricted to what execute_cmd reads): the success bit of the exit status and
the stdout/stderr text (the `String::from_utf8_lossy` conversions are
modelled by taking the texts as strings). -/
structure CmdOutput where
  status_success : Bool
  stdout : String
  stderr : String
deriving DecidableEq, Repr

/-- src/engine/strat_engine/util.rs lines 17-30 (`execute_cmd`): the spawned
command's result is passed as an argument; `Except.error` on the outside
models the `?` propagation of an io failure of `cmd.output()` itself. -/
def execute_cmd (output : Except String CmdOutput) (error_msg : String) :
    Except EngineError Unit :=
  match output with
  | .error e => .error (.ioErr e)
  | .ok result =>
    if result.status_success then
      .ok ()
    else
      .error (.engine .error
        (error_msg ++ " stdout: " ++ result.stdout ++ " stderr: "
          ++ result.stderr))

/-! ### Concrete fixtures

A minimal concrete instance of the Domain Engine façade, used to evaluate the
handlers on concrete inputs. -/

/-- A pool held by the concrete test engine. -/
structure SimPool where
  name : String
  pool_uuid : Uuid
  blockdevs : List Uuid
deriving DecidableEq, Repr

/-- The state of the concrete test engine. -/
structure SimEngine where
  pools : List SimPool
  next_uuid : Uuid
deriving DecidableEq, Repr

/-- Modelled from the spec (section 4.5, Domain Engine façade contract):
create_pool fails on a name collision and otherwise creates a pool holding
one block device per requested device path. -/
def simCreatePool (s : SimEngine) (name : String) (devs : List String)
    (_redundancy : Option Nat) (_force : Bool) :
    Except EngineError Uuid × SimEngine :=
  if s.pools.any (fun p => p.name == name) then
    (.error (.engine .alreadyExists ("pool " ++ name ++ " already exists")), s)
  else
    let u := s.next_uuid
    let bds := (List.range devs.length).map (fun i => u * 100 + i)
    (.ok u, { pools := ⟨name, u, bds⟩ :: s.pools, next_uuid := u + 1 })

/-- Modelled from the spec (section 4.5): look up a pool and report its block
devices. -/
def simGetPoolBlockdevs (s : SimEngine) (u : Uuid) : Option (List Uuid) :=
  (s.pools.find? (fun p => p.pool_uuid == u)).map (fun p => p.blockdevs)

/-- Modelled from the spec (section 4.5): destroy_pool reports through its
boolean whether a pool was actually removed. -/
def simDestroyPool (s : SimEngine) (u : Uuid) :
    Except EngineError Bool × SimEngine :=
  if s.pools.any (fun p => p.pool_uuid == u) then
    (.ok true, { s with pools := s.pools.filter (fun p => p.pool_uuid != u) })
  else
    (.ok false, s)

/-- Modelled from the spec (section 4.5): configure_simulator always
succeeds on the test engine. -/
def simConfigureSimulator (s : SimEngine) (_d : Nat) :
    Except EngineError Unit × SimEngine :=
  (.ok (), s)

/-- The concrete test engine packaged as a façade instance. -/
def simOps : EngineOps SimEngine :=
  ⟨simCreatePool, simGetPoolBlockdevs, simDestroyPool, simConfigureSimulator⟩

/-- An engine façade instance whose destroy operation always fails with a
Busy error (a pool with active filesystems, spec section 4.5). -/
def busyOps : EngineOps Unit :=
  ⟨fun s _ _ _ _ => (.error (.engine .busy "busy"), s),
   fun _ _ => none,
   fun s _ => (.error (.engine .busy "pool has active filesystems"), s),
   fun s _ => (.ok (), s)⟩

/-- The empty concrete engine state. -/
def simEngine0 : SimEngine := { pools := [], next_uuid := 0 }

/-- The engine state after creating pool "p1" from one device. -/
def simEngine1 : SimEngine :=
  { pools := [⟨"p1", 0, [0]⟩], next_uuid := 1 }

/-- A fresh shared context over the empty concrete engine. -/
def simCtx0 : DbusContext SimEngine :=
  { next_index := 0, engine := simEngine0, actions := [] }

/-- A fresh system state over the empty concrete engine. -/
def simSt0 : SysState SimEngine :=
  { ctx := simCtx0, tree := [], conn := [] }

/-- A shared context over the engine that already holds pool "p1". -/
def simCtx1 : DbusContext SimEngine :=
  { next_index := 2, engine := simEngine1, actions := [] }

/-- A shared context over the always-busy engine. -/
def busyCtx : DbusContext Unit :=
  { next_index := 0, engine := (), actions := [] }

/-- A tree holding one bound pool path whose entity record carries the
identity 99. -/
def tree99 : DbusTree :=
  [("/org/storage/stratis1/9", some ⟨"/org/storage/stratis1", 99⟩)]

/-! ### Trace predicates -/

/-- The borrow state after one event: `borrowEngine` acquires, and the drop
of the `RefMut` (`releaseEngine`) releases; every other event leaves the
state unchanged. -/
def afterBorrow (b : Bool) : Event → Bool
  | .borrowEngine => true
  | .releaseEngine => false
  | _ => b

/-- Whether an event pushes a Deferred Action onto the queue. -/
def eventIsPush : Event → Bool
  | .pushAdd _ => true
  | .pushRemove _ => true
  | _ => false

/-- Whether an event pushes an Add action onto the queue. -/
def eventIsAddPush : Event → Bool
  | .pushAdd _ => true
  | _ => false

/-- Whether an event mutates the Registry (the dbus tree) or the transport
registration. -/
def eventIsRegistryMutation : Event → Bool
  | .registerPath _ => true
  | .unregisterPath _ => true
  | .treeInsert _ => true
  | .treeRemove _ => true
  | _ => false

/-- Whether an event belongs to the handler phase: the engine-borrow
lifecycle, the engine operations, and the queue pushes — everything except
Registry/transport mutations. -/
def eventIsHandlerPhase : Event → Bool
  | .registerPath _ => false
  | .unregisterPath _ => false
  | .treeInsert _ => false
  | .treeRemove _ => false
  | _ => true

/-- `whileBorrowed p tr b` scans the trace `tr` starting from borrow state
`b` and reports whether some event satisfying `p` occurs while the engine
borrow is held. -/
def whileBorrowed (p : Event → Bool) : List Event → Bool → Bool
  | [], _ => false
  | e :: rest, b => (p e && b) || whileBorrowed p rest (afterBorrow b e)

/-- The registry/transport mutations that draining a given queue must
perform, in enqueue order: for each Add, a transport registration
followed by a tree insert; for each Remove, a transport unregistration
followed by a tree removal. -/
def eventsOfQueue : List DeferredAction → List Event
  | [] => []
  | .add p _ :: rest =>
    Event.registerPath p :: Event.treeInsert p :: eventsOfQueue rest
  | .remove p :: rest =>
    Event.unregisterPath p :: Event.treeRemove p :: eventsOfQueue rest

/-! ### Helper lemmas about traces and the drain step -/

/-- Scanning an appended trace: a flagged event occurs in the first part, or
in the second part started from the borrow state the first part ends in. -/
theorem whileBorrowed_append (p : Event → Bool) (t1 t2 : List Event)
    (b : Bool) :
    whileBorrowed p (t1 ++ t2) b
      = (whileBorrowed p t1 b || whileBorrowed p t2 (t1.foldl afterBorrow b)) := by
  induction t1 generalizing b with
  | nil => simp [whileBorrowed]
  | cons e rest ih => simp [whileBorrowed, ih, Bool.or_assoc]

/-- A trace none of whose events are flagged flags nothing, from any borrow
state. -/
theorem whileBorrowed_eq_false_of_forall (p : Event → Bool) :
    ∀ (t : List Event) (b : Bool), (∀ e ∈ t, p e = false) →
      whileBorrowed p t b = false
  | [], _, _ => rfl
  | e :: rest, b, h => by
    have he := h e (by simp)
    have hrest := whileBorrowed_eq_false_of_forall p rest (afterBorrow b e)
      (fun x hx => h x (by simp [hx]))
    simp [whileBorrowed, he, hrest]

/-- A trace that never acquires the engine borrow, scanned from the released
state, flags nothing. -/
theorem whileBorrowed_no_borrow (p : Event → Bool) :
    ∀ (t : List Event), (∀ e ∈ t, e ≠ Event.borrowEngine) →
      whileBorrowed p t false = false
  | [], _ => rfl
  | e :: rest, h => by
    have hne := h e (by simp)
    have hrest := whileBorrowed_no_borrow p rest (fun x hx => h x (by simp [hx]))
    have hb : afterBorrow false e = false := by
      cases e
      case borrowEngine => exact absurd rfl hne
      all_goals rfl
    simp [whileBorrowed, hb, hrest]

/-- Registry/transport mutation events do not change the borrow state. -/
theorem foldl_afterBorrow_registry :
    ∀ (t : List Event) (b : Bool),
      (∀ e ∈ t, eventIsRegistryMutation e = true) →
      List.foldl afterBorrow b t = b
  | [], _, _ => rfl
  | e :: rest, b, h => by
    have he : afterBorrow b e = b := by
      have hr := h e (by simp)
      cases e <;> simp_all [eventIsRegistryMutation, afterBorrow]
    have hrest := foldl_afterBorrow_registry rest b (fun x hx => h x (by simp [hx]))
    simp [he, hrest]

/-- A handler trace ends with the drop of the engine borrow, so it always
ends in the released state. -/
theorem foldl_afterBorrow_handlerTrace (op : Event) (pushes : List Event)
    (b : Bool) :
    List.foldl afterBorrow b (handlerTrace op pushes) = false := by
  simp [handlerTrace, List.foldl_append, afterBorrow]

/-- The events of a handler trace. -/
theorem mem_handlerTrace {e op : Event} {pushes : List Event}
    (h : e ∈ handlerTrace op pushes) :
    e = Event.borrowEngine ∨ e = op ∨ e ∈ pushes ∨ e = Event.releaseEngine := by
  simp [handlerTrace] at h
  tauto

/-- Push events over a list of paths are handler-phase events. -/
theorem mem_map_pushAdd_handler_phase {e : Event} {l : List String}
    (h : e ∈ l.map Event.pushAdd) : eventIsHandlerPhase e = true := by
  rcases List.mem_map.mp h with ⟨x, _, hx⟩
  simp [← hx, eventIsHandlerPhase]

/-- Every event emitted by the drain loop is a registry/transport
mutation. -/
theorem run_actions_events_registry :
    ∀ (l : List DeferredAction) (conn : List String) (tree : DbusTree)
      (e : Event), e ∈ (run_actions conn tree l).2.2 →
      eventIsRegistryMutation e = true
  | [], _, _, _ => by simp [run_actions]
  | a :: rest, conn, tree, e => by
    intro he
    simp only [run_actions] at he
    rcases List.mem_append.mp he with h1 | h2
    · cases a <;> simp [apply_action] at h1 <;>
        rcases h1 with h | h <;> simp [h, eventIsRegistryMutation]
    · exact run_actions_events_registry rest _ _ e h2

/-- The drain loop emits, in order, exactly the registry/transport mutations
dictated by the queue contents. -/
theorem run_actions_events_eventsOfQueue :
    ∀ (l : List DeferredAction) (conn : List String) (tree : DbusTree),
      (run_actions conn tree l).2.2 = eventsOfQueue l
  | [], _, _ => rfl
  | a :: rest, conn, tree => by
    cases a <;>
      simp [run_actions, apply_action, eventsOfQueue,
        run_actions_events_eventsOfQueue rest]

/-- Every error kind translates to a nonzero numeric code: the code 0 is
reserved for the success sentinel. -/
theorem engine_to_dbus_err_tuple_code_ne_zero (e : EngineError) :
    (engine_to_dbus_err_tuple e).1 ≠ 0 := by
  cases e with
  | engine k msg => cases k <;> simp [engine_to_dbus_err_tuple, dbusErrorCode]
  | ioErr msg => simp [engine_to_dbus_err_tuple]

/-- A synthesized object path is never the default path. -/
theorem synthesized_path_ne_default (n : Nat) :
    STRATIS_BASE_PATH ++ "/" ++ toString n ≠ dbusPathDefault := by
  intro h
  have h2 := congrArg String.length h
  rw [String.length_append, String.length_append] at h2
  have e1 : STRATIS_BASE_PATH.length = 21 := by decide
  have e2 : ("/" : String).length = 1 := by decide
  have e3 : dbusPathDefault.length = 1 := by decide
  omega

/-- Every event a create_pool handler invocation emits belongs to the
handler phase (no registry/transport mutation happens inside the handler). -/
theorem create_pool_events_handler_phase {σ : Type} (E : EngineOps σ)
    (name : String) (red : Bool × Nat) (force : Bool) (devs : List String)
    (base : String) (ctx : DbusContext σ) :
    ∀ e ∈ (create_pool E name red force devs base ctx).events,
      eventIsHandlerPhase e = true := by
  intro e he
  simp only [create_pool] at he
  split at he
  · split at he
    · rcases mem_handlerTrace he with h | h | h | h
      · simp [h, eventIsHandlerPhase]
      · simp [h, eventIsHandlerPhase]
      · simp at h
        simp [h, eventIsHandlerPhase]
      · simp [h, eventIsHandlerPhase]
    · rcases mem_handlerTrace he with h | h | h | h
      · simp [h, eventIsHandlerPhase]
      · simp [h, eventIsHandlerPhase]
      · rcases List.mem_cons.mp h with h1 | h1
        · simp [h1, eventIsHandlerPhase]
        · exact mem_map_pushAdd_handler_phase h1
      · simp [h, eventIsHandlerPhase]
  · rcases mem_handlerTrace he with h | h | h | h
    · simp [h, eventIsHandlerPhase]
    · simp [h, eventIsHandlerPhase]
    · simp at h
    · simp [h, eventIsHandlerPhase]

/-- A create_pool handler invocation ends with the engine borrow released. -/
theorem create_pool_events_foldl {σ : Type} (E : EngineOps σ)
    (name : String) (red : Bool × Nat) (force : Bool) (devs : List String)
    (base : String) (ctx : DbusContext σ) :
    List.foldl afterBorrow false
      (create_pool E name red force devs base ctx).events = false := by
  simp only [create_pool]
  split
  · split
    · exact foldl_afterBorrow_handlerTrace _ _ _
    · exact foldl_afterBorrow_handlerTrace _ _ _
  · exact foldl_afterBorrow_handlerTrace _ _ _

/-- Every event a destroy_pool handler invocation emits belongs to the
handler phase. -/
theorem destroy_pool_events_handler_phase {σ : Type} (E : EngineOps σ)
    (object_path : String) (tree : DbusTree) (ctx : DbusContext σ) :
    ∀ e ∈ (destroy_pool E object_path tree ctx).events,
      eventIsHandlerPhase e = true := by
  intro e he
  simp only [destroy_pool] at he
  split at he
  · simp at he
  · simp at he
  · split at he
    · rcases mem_handlerTrace he with h | h | h | h
      · simp [h, eventIsHandlerPhase]
      · simp [h, eventIsHandlerPhase]
      · simp at h
        simp [h, eventIsHandlerPhase]
      · simp [h, eventIsHandlerPhase]
    · rcases mem_handlerTrace he with h | h | h | h
      · simp [h, eventIsHandlerPhase]
      · simp [h, eventIsHandlerPhase]
      · simp at h
      · simp [h, eventIsHandlerPhase]

/-- A destroy_pool handler invocation ends with the engine borrow
released. -/
theorem destroy_pool_events_foldl {σ : Type} (E : EngineOps σ)
    (object_path : String) (tree : DbusTree) (ctx : DbusContext σ) :
    List.foldl afterBorrow false
      (destroy_pool E object_path tree ctx).events = false := by
  simp only [destroy_pool]
  split
  · rfl
  · rfl
  · split
    · exact foldl_afterBorrow_handlerTrace _ _ _
    · exact foldl_afterBorrow_handlerTrace _ _ _

/-- Every event a configure_simulator handler invocation emits belongs to
the handler phase. -/
theorem configure_simulator_events_handler_phase {σ : Type} (E : EngineOps σ)
    (denominator : Nat) (ctx : DbusContext σ) :
    ∀ e ∈ (configure_simulator E denominator ctx).events,
      eventIsHandlerPhase e = true := by
  intro e he
  simp only [configure_simulator] at he
  split at he <;>
    · rcases mem_handlerTrace he with h | h | h | h
      · simp [h, eventIsHandlerPhase]
      · simp [h, eventIsHandlerPhase]
      · simp at h
      · simp [h, eventIsHandlerPhase]

/-- A configure_simulator handler invocation ends with the engine borrow
released. -/
theorem configure_simulator_events_foldl {σ : Type} (E : EngineOps σ)
    (denominator : Nat) (ctx : DbusContext σ) :
    List.foldl afterBorrow false
      (configure_simulator E denominator ctx).events = false := by
  simp only [configure_simulator]
  split <;> exact foldl_afterBorrow_handlerTrace _ _ _

/-- Every event emitted while dispatching a call to its handler belongs to
the handler phase. -/
theorem dispatch_events_handler_phase {σ : Type} (E : EngineOps σ)
    (call : MethodCall) (st : SysState σ) :
    ∀ e ∈ (dispatch E call st).2.2, eventIsHandlerPhase e = true := by
  cases call with
  | createPoolCall name red force devs =>
    exact create_pool_events_handler_phase E name red force devs
      STRATIS_BASE_PATH st.ctx
  | destroyPoolCall pool =>
    exact destroy_pool_events_handler_phase E pool st.tree st.ctx
  | configureSimulatorCall den =>
    exact configure_simulator_events_handler_phase E den st.ctx

/-- Dispatching a call to its handler ends with the engine borrow
released. -/
theorem dispatch_events_foldl {σ : Type} (E : EngineOps σ)
    (call : MethodCall) (st : SysState σ) :
    List.foldl afterBorrow false (dispatch E call st).2.2 = false := by
  cases call with
  | createPoolCall name red force devs =>
    exact create_pool_events_foldl E name red force devs
      STRATIS_BASE_PATH st.ctx
  | destroyPoolCall pool =>
    exact destroy_pool_events_foldl E pool st.tree st.ctx
  | configureSimulatorCall den =>
    exact configure_simulator_events_foldl E den st.ctx

/-- Creating the block-device child objects produces one path per block
device and appends one Add action per block device to the queue. -/
theorem create_blockdev_paths_spec {σ : Type} (parent : String) :
    ∀ (l : List Uuid) (ctx : DbusContext σ),
      (create_blockdev_paths parent l ctx).1.length = l.length ∧
      ∃ d : List DeferredAction,
        (create_blockdev_paths parent l ctx).2.actions = ctx.actions ++ d ∧
        d.length = l.length ∧ ∀ a ∈ d, a.isAdd = true
  | [], ctx => by simp [create_blockdev_paths]
  | u :: rest, ctx => by
    obtain ⟨h1, d, hd1, hd2, hd3⟩ :=
      create_blockdev_paths_spec parent rest (create_dbus_blockdev ctx parent u).2
    constructor
    · simp [create_blockdev_paths, h1]
    · refine ⟨DeferredAction.add
        (STRATIS_BASE_PATH ++ "/" ++ toString ctx.next_index)
        (some ⟨parent, u⟩) :: d, ?_, ?_, ?_⟩
      · simp [create_dbus_blockdev, ActionQueue.push_add] at hd1
        simp [create_blockdev_paths, create_dbus_blockdev,
          ActionQueue.push_add, hd1]
      · simp [hd2]
      · intro a ha
        rcases List.mem_cons.mp ha with h | h
        · simp [h, DeferredAction.isAdd]
        · exact hd3 a h

/-! ### The claims -/

/-- **C1**, the claim as stated, refuted at a concrete input: dispatching
CreatePool ("p1", no redundancy, force = false, devices = ["/dev/x1"])
against the concrete engine, an Add action is pushed onto the action queue
while the engine's mutable borrow is still held — the `RefMut` bound to
`engine` in create_pool (src/dbus_api/api.rs line 56) lives until the end of
the function, and `create_dbus_pool`/`create_dbus_blockdev` enqueue their
Add actions (and `get_mut_pool!` uses the borrow again) before it is
dropped. -/
theorem create_pool_pushes_add_while_engine_borrowed :
    whileBorrowed eventIsAddPush
      (handle simOps
        (.createPoolCall "p1" (false, 0) false ["/dev/x1"]) simSt0).events
      false = true := by decide

/-- **C1**, amended: for every inbound call, the Registry (dbus tree) and
the transport registration are touched only after the engine's mutable
borrow has been released — every registry/transport mutation happens in the
drain step, which runs after the handler has returned and dropped the borrow,
and the whole cycle ends with the borrow released; Deferred Actions, however,
are enqueued while the borrow is still held. -/
theorem registry_untouched_while_engine_borrowed {σ : Type}
    (E : EngineOps σ) (call : MethodCall) (st : SysState σ) :
    whileBorrowed eventIsRegistryMutation (handle E call st).events false
      = false ∧
    List.foldl afterBorrow false (handle E call st).events = false := by
  have hev : (handle E call st).events
      = (dispatch E call st).2.2
        ++ (run_actions st.conn st.tree (dispatch E call st).2.1.actions).2.2 :=
    rfl
  have hdisp1 := dispatch_events_handler_phase E call st
  have hdisp2 := dispatch_events_foldl E call st
  have hdrain : ∀ e ∈
      (run_actions st.conn st.tree (dispatch E call st).2.1.actions).2.2,
      eventIsRegistryMutation e = true :=
    fun e he => run_actions_events_registry _ _ _ e he
  constructor
  · rw [hev, whileBorrowed_append]
    have h1 : whileBorrowed eventIsRegistryMutation
        (dispatch E call st).2.2 false = false :=
      whileBorrowed_eq_false_of_forall _ _ _ (fun e he => by
        have hp := hdisp1 e he
        cases e <;> simp_all [eventIsHandlerPhase, eventIsRegistryMutation])
    have h2 : whileBorrowed eventIsRegistryMutation
        (run_actions st.conn st.tree (dispatch E call st).2.1.actions).2.2
        false = false :=
      whileBorrowed_no_borrow _ _ (fun e he => by
        have hr := hdrain e he
        cases e <;> simp_all [eventIsRegistryMutation])
    rw [h1, hdisp2, h2]
    rfl
  · rw [hev, List.foldl_append, hdisp2]
    exact foldl_afterBorrow_registry _ false hdrain

/-- **C2**: after `handle` processes an inbound method call, the deferred
action queue is drained to empty — no action remains in the queue across the
boundary between two call cycles. -/
theorem handle_drains_queue_to_empty {σ : Type} (E : EngineOps σ)
    (call : MethodCall) (st : SysState σ) :
    (handle E call st).state.ctx.actions = [] := rfl

/-- **C3**: draining the deferred action queue applies the queued actions in
exactly enqueue (FIFO) order — the emitted registration/unregistration and
tree insert/remove effects are precisely those dictated by the queue
contents, action by action in queue order — and leaves the queue empty. -/
theorem process_deferred_actions_fifo (conn : List String) (tree : DbusTree)
    (q : ActionQueue) :
    (process_deferred_actions conn tree q).events = eventsOfQueue q ∧
    (process_deferred_actions conn tree q).queue = [] :=
  ⟨run_actions_events_eventsOfQueue q conn tree, rfl⟩

/-- **C4**: a DestroyPool call whose target path is not bound in the tree
returns the no-op success reply (false, ok code, ok message), leaves the
shared context — in particular the action queue — unchanged, and emits no
events at all: the engine borrow is never acquired and the engine's destroy
operation is never invoked. -/
theorem destroy_pool_unknown_path_noop {σ : Type} (E : EngineOps σ)
    (p : String) (tree : DbusTree) (ctx : DbusContext σ)
    (h : DbusTree.get tree p = none) :
    (destroy_pool E p tree ctx).reply = ⟨false, msg_code_ok, msg_string_ok⟩ ∧
    (destroy_pool E p tree ctx).ctx = ctx ∧
    (destroy_pool E p tree ctx).events = [] := by
  simp [destroy_pool, h]

/-- **C4** witness: evaluated at the empty tree and the path "/nope". -/
theorem destroy_pool_unknown_path_noop_witness :
    DbusTree.get ([] : DbusTree) "/nope" = none ∧
    ((destroy_pool simOps "/nope" [] simCtx0).reply
        = ⟨false, msg_code_ok, msg_string_ok⟩ ∧
      (destroy_pool simOps "/nope" [] simCtx0).ctx = simCtx0 ∧
      (destroy_pool simOps "/nope" [] simCtx0).events = []) :=
  ⟨rfl, destroy_pool_unknown_path_noop simOps "/nope" [] simCtx0 rfl⟩

/-- **C5**: when the engine accepts a CreatePool call, the reply carries
code 0, a non-default pool object path, and a device-path list whose length
equals the number of block devices the engine reports for the pool; and the
handler enqueues exactly one Add per created entity — one Add carrying the
pool path, followed by one Add per block device. -/
theorem create_pool_success_reply_and_adds {σ : Type} (E : EngineOps σ)
    (name : String) (red : Bool × Nat) (force : Bool) (devs : List String)
    (base : String) (ctx : DbusContext σ) (uuid : Uuid) (s' : σ)
    (bds : List Uuid)
    (h1 : E.create_pool ctx.engine name devs (tuple_to_option red) force
        = (.ok uuid, s'))
    (h2 : E.get_pool_blockdevs s' uuid = some bds) :
    (create_pool E name red force devs base ctx).reply.code = 0 ∧
    (create_pool E name red force devs base ctx).reply.payload.1
      ≠ dbusPathDefault ∧
    (create_pool E name red force devs base ctx).reply.payload.2.length
      = bds.length ∧
    ∃ d : List DeferredAction,
      (create_pool E name red force devs base ctx).ctx.actions
        = ctx.actions
          ++ DeferredAction.add
              (create_pool E name red force devs base ctx).reply.payload.1
              (some ⟨base, uuid⟩) :: d ∧
      d.length = bds.length ∧ ∀ a ∈ d, a.isAdd = true := by
  have key : create_pool E name red force devs base ctx
      = { reply := ⟨(STRATIS_BASE_PATH ++ "/" ++ toString ctx.next_index,
            (create_blockdev_paths
              (STRATIS_BASE_PATH ++ "/" ++ toString ctx.next_index) bds
              { next_index := ctx.next_index + 1
                engine := s'
                actions := ctx.actions
                  ++ [DeferredAction.add
                      (STRATIS_BASE_PATH ++ "/" ++ toString ctx.next_index)
                      (some ⟨base, uuid⟩)] }).1),
            msg_code_ok, msg_string_ok⟩
          ctx := (create_blockdev_paths
              (STRATIS_BASE_PATH ++ "/" ++ toString ctx.next_index) bds
              { next_index := ctx.next_index + 1
                engine := s'
                actions := ctx.actions
                  ++ [DeferredAction.add
                      (STRATIS_BASE_PATH ++ "/" ++ toString ctx.next_index)
                      (some ⟨base, uuid⟩)] }).2
          events := handlerTrace Event.engineCreatePool
            (Event.pushAdd (STRATIS_BASE_PATH ++ "/" ++ toString ctx.next_index)
              :: (create_blockdev_paths
                  (STRATIS_BASE_PATH ++ "/" ++ toString ctx.next_index) bds
                  { next_index := ctx.next_index + 1
                    engine := s'
                    actions := ctx.actions
                      ++ [DeferredAction.add
                          (STRATIS_BASE_PATH ++ "/" ++ toString ctx.next_index)
                          (some ⟨base, uuid⟩)] }).1.map Event.pushAdd) } := by
    simp [create_pool, h1, h2, create_dbus_pool, ActionQueue.push_add]
  obtain ⟨hl, d, hdc, hdl, hda⟩ := create_blockdev_paths_spec
    (STRATIS_BASE_PATH ++ "/" ++ toString ctx.next_index) bds
    { next_index := ctx.next_index + 1
      engine := s'
      actions := ctx.actions
        ++ [DeferredAction.add
            (STRATIS_BASE_PATH ++ "/" ++ toString ctx.next_index)
            (some ⟨base, uuid⟩)] }
  rw [key]
  refine ⟨rfl, synthesized_path_ne_default ctx.next_index, hl, d, ?_, hdl, hda⟩
  rw [hdc]
  simp

/-- **C5** witness: CreatePool "p1" with one device against the empty
concrete engine. -/
theorem create_pool_success_reply_and_adds_witness :
    simOps.create_pool simCtx0.engine "p1" ["/dev/x1"]
        (tuple_to_option (false, 0)) false = (.ok 0, simEngine1) ∧
    simOps.get_pool_blockdevs simEngine1 0 = some [0] ∧
    ((create_pool simOps "p1" (false, 0) false ["/dev/x1"]
        STRATIS_BASE_PATH simCtx0).reply.code = 0 ∧
      (create_pool simOps "p1" (false, 0) false ["/dev/x1"]
        STRATIS_BASE_PATH simCtx0).reply.payload.1 ≠ dbusPathDefault ∧
      (create_pool simOps "p1" (false, 0) false ["/dev/x1"]
        STRATIS_BASE_PATH simCtx0).reply.payload.2.length
        = ([0] : List Uuid).length ∧
      ∃ d : List DeferredAction,
        (create_pool simOps "p1" (false, 0) false ["/dev/x1"]
          STRATIS_BASE_PATH simCtx0).ctx.actions
          = simCtx0.actions
            ++ DeferredAction.add
                (create_pool simOps "p1" (false, 0) false ["/dev/x1"]
                  STRATIS_BASE_PATH simCtx0).reply.payload.1
                (some ⟨STRATIS_BASE_PATH, 0⟩) :: d ∧
        d.length = ([0] : List Uuid).length ∧ ∀ a ∈ d, a.isAdd = true) :=
  ⟨rfl, rfl,
    create_pool_success_reply_and_adds simOps "p1" (false, 0) false
      ["/dev/x1"] STRATIS_BASE_PATH simCtx0 0 simEngine1 [0] rfl rfl⟩

/-- **C6**: when the engine rejects a CreatePool call, the reply carries the
fixed default payload (the default object path and an empty device list) in
the same three-part reply shape, a nonzero numeric code, and the translated
message — non-empty whenever the translated message is non-empty — and zero
deferred actions are enqueued, so the Registry is unchanged. -/
theorem create_pool_failure_default_payload {σ : Type} (E : EngineOps σ)
    (name : String) (red : Bool × Nat) (force : Bool) (devs : List String)
    (base : String) (ctx : DbusContext σ) (e : EngineError) (s' : σ)
    (h1 : E.create_pool ctx.engine name devs (tuple_to_option red) force
        = (.error e, s'))
    (h2 : (engine_to_dbus_err_tuple e).2 ≠ "") :
    (create_pool E name red force devs base ctx).reply.payload
      = (dbusPathDefault, []) ∧
    (create_pool E name red force devs base ctx).reply.code ≠ 0 ∧
    (create_pool E name red force devs base ctx).reply.message ≠ "" ∧
    (create_pool E name red force devs base ctx).ctx.actions
      = ctx.actions := by
  have key : create_pool E name red force devs base ctx
      = { reply := ⟨(dbusPathDefault, []), (engine_to_dbus_err_tuple e).1,
            (engine_to_dbus_err_tuple e).2⟩
          ctx := { ctx with engine := s' }
          events := handlerTrace Event.engineCreatePool [] } := by
    simp [create_pool, h1]
  rw [key]
  exact ⟨rfl, engine_to_dbus_err_tuple_code_ne_zero e, h2, rfl⟩

/-- **C6** witness: the second CreatePool "p1" against the concrete engine
that already holds pool "p1". -/
theorem create_pool_failure_default_payload_witness :
    simOps.create_pool simCtx1.engine "p1" ["/dev/x1"]
        (tuple_to_option (false, 0)) false
      = (.error (.engine .alreadyExists "pool p1 already exists"),
          simEngine1) ∧
    (engine_to_dbus_err_tuple
        (.engine .alreadyExists "pool p1 already exists")).2 ≠ "" ∧
    ((create_pool simOps "p1" (false, 0) false ["/dev/x1"]
        STRATIS_BASE_PATH simCtx1).reply.payload = (dbusPathDefault, []) ∧
      (create_pool simOps "p1" (false, 0) false ["/dev/x1"]
        STRATIS_BASE_PATH simCtx1).reply.code ≠ 0 ∧
      (create_pool simOps "p1" (false, 0) false ["/dev/x1"]
        STRATIS_BASE_PATH simCtx1).reply.message ≠ "" ∧
      (create_pool simOps "p1" (false, 0) false ["/dev/x1"]
        STRATIS_BASE_PATH simCtx1).ctx.actions = simCtx1.actions) :=
  ⟨rfl, by decide,
    create_pool_failure_default_payload simOps "p1" (false, 0) false
      ["/dev/x1"] STRATIS_BASE_PATH simCtx1
      (.engine .alreadyExists "pool p1 already exists") simEngine1 rfl
      (by decide)⟩

/-- **C7**: draining an empty deferred action queue performs no
registration, unregistration, tree insert or tree removal (no events, and
connection and tree are returned unchanged), and a second consecutive drain
of the resulting state again changes nothing. -/
theorem process_deferred_actions_empty_idempotent (conn : List String)
    (tree : DbusTree) :
    process_deferred_actions conn tree [] = ⟨conn, tree, [], []⟩ ∧
    process_deferred_actions (process_deferred_actions conn tree []).conn
      (process_deferred_actions conn tree []).tree
      (process_deferred_actions conn tree []).queue
      = ⟨conn, tree, [], []⟩ :=
  ⟨rfl, rfl⟩

/-- **C8**: when DestroyPool resolves its target path to a pool identity but
the engine's destroy operation fails, no Remove action is enqueued (the
queue is unchanged, and no event of the call mutates the Registry), and the
reply carries the default payload false with the translated nonzero
(code, message) pair. -/
theorem destroy_pool_engine_error_no_enqueue {σ : Type} (E : EngineOps σ)
    (p : String) (tree : DbusTree) (ctx : DbusContext σ) (data : OPContext)
    (e : EngineError) (s' : σ)
    (h1 : DbusTree.get tree p = some (some data))
    (h2 : E.destroy_pool ctx.engine data.uuid = (.error e, s')) :
    (destroy_pool E p tree ctx).ctx.actions = ctx.actions ∧
    (destroy_pool E p tree ctx).reply
      = ⟨false, (engine_to_dbus_err_tuple e).1,
          (engine_to_dbus_err_tuple e).2⟩ ∧
    (engine_to_dbus_err_tuple e).1 ≠ 0 ∧
    ∀ ev ∈ (destroy_pool E p tree ctx).events,
      eventIsRegistryMutation ev = false := by
  have key : destroy_pool E p tree ctx
      = { reply := ⟨false, (engine_to_dbus_err_tuple e).1,
            (engine_to_dbus_err_tuple e).2⟩
          ctx := { ctx with engine := s' }
          events := handlerTrace Event.engineDestroyPool [] } := by
    simp [destroy_pool, h1, h2]
  rw [key]
  refine ⟨rfl, rfl, engine_to_dbus_err_tuple_code_ne_zero e, ?_⟩
  intro ev hev
  rcases mem_handlerTrace hev with h | h | h | h
  · simp [h, eventIsRegistryMutation]
  · simp [h, eventIsRegistryMutation]
  · simp at h
  · simp [h, eventIsRegistryMutation]

/-- **C8** witness: DestroyPool on a bound path against the always-busy
engine. -/
theorem destroy_pool_engine_error_no_enqueue_witness :
    DbusTree.get tree99 "/org/storage/stratis1/9"
      = some (some ⟨"/org/storage/stratis1", 99⟩) ∧
    busyOps.destroy_pool busyCtx.engine
        (OPContext.uuid ⟨"/org/storage/stratis1", 99⟩)
      = (.error (.engine .busy "pool has active filesystems"), ()) ∧
    ((destroy_pool busyOps "/org/storage/stratis1/9" tree99 busyCtx).ctx.actions
        = busyCtx.actions ∧
      (destroy_pool busyOps "/org/storage/stratis1/9" tree99 busyCtx).reply
        = ⟨false,
            (engine_to_dbus_err_tuple
              (.engine .busy "pool has active filesystems")).1,
            (engine_to_dbus_err_tuple
              (.engine .busy "pool has active filesystems")).2⟩ ∧
      (engine_to_dbus_err_tuple
          (.engine .busy "pool has active filesystems")).1 ≠ 0 ∧
      ∀ ev ∈ (destroy_pool busyOps "/org/storage/stratis1/9" tree99
          busyCtx).events, eventIsRegistryMutation ev = false) :=
  ⟨rfl, rfl,
    destroy_pool_engine_error_no_enqueue busyOps "/org/storage/stratis1/9"
      tree99 busyCtx ⟨"/org/storage/stratis1", 99⟩
      (.engine .busy "pool has active filesystems") () rfl rfl⟩

/-- **C9**: whenever the engine's destroy operation returns Ok for a
resolved pool — including Ok false, where no action was actually taken —
DestroyPool enqueues exactly one Remove action carrying the caller-supplied
object path, and the reply's boolean equals the engine's returned boolean
with the ok code and ok message. -/
theorem destroy_pool_engine_ok_enqueues_remove {σ : Type} (E : EngineOps σ)
    (p : String) (tree : DbusTree) (ctx : DbusContext σ) (data : OPContext)
    (b : Bool) (s' : σ)
    (h1 : DbusTree.get tree p = some (some data))
    (h2 : E.destroy_pool ctx.engine data.uuid = (.ok b, s')) :
    (destroy_pool E p tree ctx).ctx.actions
      = ctx.actions ++ [DeferredAction.remove p] ∧
    (destroy_pool E p tree ctx).reply = ⟨b, msg_code_ok, msg_string_ok⟩ := by
  simp [destroy_pool, h1, h2, ActionQueue.push_remove]

/-- **C9** witness: DestroyPool on a bound path whose identity the concrete
engine does not know, so the engine returns Ok false — the Remove is still
enqueued and the reply carries false with the ok code and message. -/
theorem destroy_pool_engine_ok_enqueues_remove_witness :
    DbusTree.get tree99 "/org/storage/stratis1/9"
      = some (some ⟨"/org/storage/stratis1", 99⟩) ∧
    simOps.destroy_pool simCtx0.engine
        (OPContext.uuid ⟨"/org/storage/stratis1", 99⟩)
      = (.ok false, simEngine0) ∧
    ((destroy_pool simOps "/org/storage/stratis1/9" tree99
        simCtx0).ctx.actions
        = simCtx0.actions
          ++ [DeferredAction.remove "/org/storage/stratis1/9"] ∧
      (destroy_pool simOps "/org/storage/stratis1/9" tree99 simCtx0).reply
        = ⟨false, msg_code_ok, msg_string_ok⟩) :=
  ⟨rfl, rfl,
    destroy_pool_engine_ok_enqueues_remove simOps "/org/storage/stratis1/9"
      tree99 simCtx0 ⟨"/org/storage/stratis1", 99⟩ false simEngine0 rfl rfl⟩

/-- **C10**: when the spawned command ran, execute_cmd returns Ok exactly
when the exit status is success, and otherwise returns an Engine error of
kind Error whose message is the caller-supplied error_msg followed by the
captured stdout and stderr texts. -/
theorem execute_cmd_status (r : CmdOutput) (msg : String) :
    (execute_cmd (.ok r) msg = .ok () ↔ r.status_success = true) ∧
    (r.status_success = false →
      execute_cmd (.ok r) msg
        = .error (.engine .error
            (msg ++ " stdout: " ++ r.stdout ++ " stderr: " ++ r.stderr))) := by
  cases hr : r.status_success <;> simp [execute_cmd, hr]

/-- **C10** witness: a failing command with captured output. -/
theorem execute_cmd_status_witness :
    (execute_cmd (.ok ⟨false, "out text", "err text"⟩) "mkfs failed"
        = .ok ()
      ↔ CmdOutput.status_success ⟨false, "out text", "err text"⟩ = true) ∧
    (CmdOutput.status_success ⟨false, "out text", "err text"⟩ = false →
      execute_cmd (.ok ⟨false, "out text", "err text"⟩) "mkfs failed"
        = .error (.engine .error
            ("mkfs failed" ++ " stdout: "
              ++ CmdOutput.stdout ⟨false, "out text", "err text"⟩
              ++ " stderr: "
              ++ CmdOutput.stderr ⟨false, "out text", "err text"⟩))) :=
  execute_cmd_status ⟨false, "out text", "err text"⟩ "mkfs failed"

end Stratisd
